import Mathlib

/-!
Verification of the per-processor virtualization controller (`hv::vcpu`,
declared in src/hv/vcpu.h) against its natural-language specification.

The provided sources contain the class declaration and its constants; the
method bodies live in a translation unit that is not among the provided
sources, so the behaviour of each method is modelled from the specification
(each such definition carries a `Modelled from the spec:` doc comment naming
the missing piece). Constants and the class member layout are embedded
directly from src/hv/vcpu.h.
-/

namespace hv

/-- Number of available descriptor slots in the host GDT (src/hv/vcpu.h:17). -/
def host_gdt_descriptor_count : Nat := 4

/-- Number of available descriptor slots in the host IDT (src/hv/vcpu.h:20). -/
def host_idt_descriptor_count : Nat := 256

/-- Size of the host stack for handling vm-exits (src/hv/vcpu.h:23). -/
def host_stack_size : Nat := 0x6000

/-- The first 128GB of physical memory is mapped to this pml4 entry
(src/hv/vcpu.h:26). -/
def host_physical_memory_pml4_idx : Nat := 255

/-- Base of the direct physical-memory access window (src/hv/vcpu.h:29-30):
the pml4 index shifted up by the 9+9+9+12 bits covered below a PML4 entry. -/
def host_physical_memory_base : Nat :=
  host_physical_memory_pml4_idx <<< (9 + 9 + 9 + 12)

/-- Directly access physical memory by using [base + offset]
(src/hv/vcpu.h:28). -/
def phys_mem_access (p : Nat) : Nat := host_physical_memory_base + p

/-- Guest virtual-processor identifier (src/hv/vcpu.h:33). -/
def guest_vpid : Nat := 1

/-! ## The MSR bitmap

The `vmx_msr_bitmap` member (src/hv/vcpu.h:119) is a 4 KiB region split into
four 1024-byte sub-regions: read-intercept and write-intercept bitmaps for a
low and a high range of 8192 identifiers each.  Each sub-region is modelled
at bit granularity as a Boolean-valued function of the bit offset. -/

/-- Number of identifiers in each of the two identifier ranges
(8192 bits = 1024 bytes per sub-region). -/
def msr_range_size : Nat := 8192

/-- The 4 KiB MSR bitmap: four 1024-byte sub-regions, modelled bitwise. -/
@[ext]
structure vmx_msr_bitmap where
  rdmsr_low : Nat → Bool
  rdmsr_high : Nat → Bool
  wrmsr_low : Nat → Bool
  wrmsr_high : Nat → Bool

/-- Overwrite one bit of a bit-vector (pointwise update). -/
def setBit (f : Nat → Bool) (i : Nat) (b : Bool) : Nat → Bool :=
  fun j => if j = i then b else f j

/-- Modelled from the spec: the body of `vcpu::toggle_exiting_for_msr`
(declared src/hv/vcpu.h:62; its definition is not among the provided
sources).  Per the spec's toggling operation: the identifier space is two
disjoint ranges of `msr_range_size` identifiers; the sub-region is selected
by whether the identifier lies in the upper range; the bit index within the
sub-region is the identifier modulo the range size; and the bit is set or
cleared to the requested intercept state in both the read-intercept and
write-intercept bitmaps of the selected range.  An identifier outside both
ranges is not accepted and leaves the bitmap untouched. -/
def toggle_exiting_for_msr (bm : vmx_msr_bitmap) (msr : Nat) (enabled : Bool) :
    vmx_msr_bitmap :=
  if msr < msr_range_size then
    { bm with
        rdmsr_low := setBit bm.rdmsr_low (msr % msr_range_size) enabled,
        wrmsr_low := setBit bm.wrmsr_low (msr % msr_range_size) enabled }
  else if msr < 2 * msr_range_size then
    { bm with
        rdmsr_high := setBit bm.rdmsr_high (msr % msr_range_size) enabled,
        wrmsr_high := setBit bm.wrmsr_high (msr % msr_range_size) enabled }
  else bm

/-- The bit-addressing law: identifier `i` selects the upper sub-region iff
`i ≥ msr_range_size`, at bit offset `i % msr_range_size`. -/
def msr_bit_addr (i : Nat) : Bool × Nat :=
  (decide (msr_range_size ≤ i), i % msr_range_size)

/-- Read the read-intercept bit at a (sub-region, offset) address. -/
def read_intercept_bit (bm : vmx_msr_bitmap) (high : Bool) (off : Nat) : Bool :=
  if high then bm.rdmsr_high off else bm.rdmsr_low off

/-- Read the write-intercept bit at a (sub-region, offset) address. -/
def write_intercept_bit (bm : vmx_msr_bitmap) (high : Bool) (off : Nat) : Bool :=
  if high then bm.wrmsr_high off else bm.wrmsr_low off

/-- Modelled from the spec: the default MSR-bitmap contents established by
`vcpu::write_vmcs_ctrl_fields` (declared src/hv/vcpu.h:87, body not among the
provided sources): all interceptable events are masked to intercept by
default, i.e. every bit of all four sub-regions is set. -/
def default_msr_bitmap : vmx_msr_bitmap :=
  ⟨fun _ => true, fun _ => true, fun _ => true, fun _ => true⟩

/-- The all-clear bitmap, used as the pre-initialization contents. -/
def zero_msr_bitmap : vmx_msr_bitmap :=
  ⟨fun _ => false, fun _ => false, fun _ => false, fun _ => false⟩

lemma msr_bit_addr_low (i : Nat) (h : i < msr_range_size) :
    msr_bit_addr i = (false, i) := by
  simp only [msr_bit_addr, Prod.mk.injEq]
  constructor
  · simp only [decide_eq_false_iff_not]
    omega
  · exact Nat.mod_eq_of_lt h

lemma msr_bit_addr_high (i : Nat) (h1 : msr_range_size ≤ i)
    (h2 : i < 2 * msr_range_size) :
    msr_bit_addr i = (true, i - msr_range_size) := by
  simp only [msr_bit_addr, Prod.mk.injEq]
  constructor
  · simp only [decide_eq_true_eq]
    exact h1
  · simp only [msr_range_size] at *
    omega

lemma toggle_low_eq (bm : vmx_msr_bitmap) (msr : Nat) (e : Bool)
    (h : msr < msr_range_size) :
    toggle_exiting_for_msr bm msr e =
      { bm with
          rdmsr_low := setBit bm.rdmsr_low msr e,
          wrmsr_low := setBit bm.wrmsr_low msr e } := by
  simp only [toggle_exiting_for_msr, if_pos h, Nat.mod_eq_of_lt h]

lemma toggle_high_eq (bm : vmx_msr_bitmap) (msr : Nat) (e : Bool)
    (h1 : msr_range_size ≤ msr) (h2 : msr < 2 * msr_range_size) :
    toggle_exiting_for_msr bm msr e =
      { bm with
          rdmsr_high := setBit bm.rdmsr_high (msr - msr_range_size) e,
          wrmsr_high := setBit bm.wrmsr_high (msr - msr_range_size) e } := by
  have hnot : ¬ msr < msr_range_size := by omega
  have hmod : msr % msr_range_size = msr - msr_range_size := by
    simp only [msr_range_size] at *
    omega
  simp only [toggle_exiting_for_msr, if_neg hnot, if_pos h2, hmod]

/-! ## The capability cache and the activation sequence

`vcpu::virtualize` (src/hv/vcpu.h:59) drives the activation stages declared
at src/hv/vcpu.h:72-100.  The stage bodies are not among the provided
sources, so the sequence is modelled from the spec as a state machine: the
hardware's per-stage verdicts are inputs (`HwEnv`), and each stage is a
function on the controller state `MState`. -/

/-- The hardware capability and feature-reporting sources, as visible to the
processor being virtualized (the values backing the fields of
`cached_vcpu_data`, src/hv/vcpu.h:35-53). -/
structure HwState where
  max_phys_addr : Nat
  vmx_cr0_fixed0 : Nat
  vmx_cr0_fixed1 : Nat
  vmx_cr4_fixed0 : Nat
  vmx_cr4_fixed1 : Nat
  xcr0_unsupported_mask : Nat
  feature_control : Nat
  cpuid_01 : Nat
deriving DecidableEq

/-- Data that is cached per-vcpu (struct `cached_vcpu_data`,
src/hv/vcpu.h:35-53); register-typed fields are modelled by their raw
values. -/
structure cached_vcpu_data where
  max_phys_addr : Nat
  vmx_cr0_fixed0 : Nat
  vmx_cr0_fixed1 : Nat
  vmx_cr4_fixed0 : Nat
  vmx_cr4_fixed1 : Nat
  xcr0_unsupported_mask : Nat
  feature_control : Nat
  cpuid_01 : Nat
deriving DecidableEq

/-- Modelled from the spec: the body of `vcpu::cache_vcpu_data` (declared
src/hv/vcpu.h:72, body not among the provided sources): queries the fixed,
documented set of hardware capability sources exactly once and snapshots
them into the cache. -/
def cache_vcpu_data (hw : HwState) : cached_vcpu_data :=
  ⟨hw.max_phys_addr, hw.vmx_cr0_fixed0, hw.vmx_cr0_fixed1,
   hw.vmx_cr4_fixed0, hw.vmx_cr4_fixed1, hw.xcr0_unsupported_mask,
   hw.feature_control, hw.cpuid_01⟩

/-- Control-structure fields whose values are checked against the mandatory
control-register masks of the capability cache. -/
inductive CtrlFieldId
  | guest_cr0
  | guest_cr4
deriving DecidableEq

/-- The mandatory-one mask the capability cache imposes on a field. -/
def mandatory_one_mask (cd : cached_vcpu_data) : CtrlFieldId → Nat
  | .guest_cr0 => cd.vmx_cr0_fixed0
  | .guest_cr4 => cd.vmx_cr4_fixed0

/-- Modelled from the spec: proactive validation of a control-structure
field write against the capability cache (part of
`vcpu::write_vmcs_ctrl_fields`, declared src/hv/vcpu.h:87, body not among
the provided sources): a value passes iff it clears no bit the cache marks
mandatory-one. -/
def validate_ctrl_write (cd : cached_vcpu_data) (f : CtrlFieldId) (v : Nat) :
    Bool :=
  decide (v &&& mandatory_one_mask cd f = mandatory_one_mask cd f)

/-- All requested field writes pass validation against the cache. -/
def ctrl_writes_ok (cd : cached_vcpu_data)
    (ws : List (CtrlFieldId × Nat)) : Bool :=
  ws.all fun p => validate_ctrl_write cd p.1 p.2

/-- The environment of one activation run: the hardware's verdict for each
fallible stage, and the control-field values the field-write stage is asked
to write. -/
structure HwEnv where
  enable_ok : Bool
  vmxon_ok : Bool
  vmptrld_ok : Bool
  launch_ok : Bool
  ctrl_writes : List (CtrlFieldId × Nat)
deriving DecidableEq

/-- The activation stages, one per method of the sequence declared at
src/hv/vcpu.h:72-100. -/
inductive Stage
  | cache
  | enable
  | enter
  | load
  | prepare
  | writeCtrl
  | writeHost
  | writeGuest
  | measure
  | launch
deriving DecidableEq

/-- The canonical stage order of the activation sequence. -/
def full_stage_order : List Stage :=
  [.cache, .enable, .enter, .load, .prepare, .writeCtrl, .writeHost,
   .writeGuest, .measure, .launch]

/-- `isHeadSeq a b` holds when list `a` is an initial segment of `b`. -/
def isHeadSeq : List Stage → List Stage → Bool
  | [], _ => true
  | _ :: _, [] => false
  | a :: as, b :: bs => if a = b then isHeadSeq as bs else false

/-- The controller state threaded through the activation machine: the
capability cache member `cached_` (src/hv/vcpu.h:137, with a write counter
to observe reassignment), progress flags for each stage, the MSR bitmap
member `msr_bitmap_` (src/hv/vcpu.h:119), and the accepted control-field
writes. -/
structure MState where
  cached : Option cached_vcpu_data
  cache_write_count : Nat
  vmx_enabled : Bool
  vmx_entered : Bool
  vmcs_loaded : Bool
  structures_prepared : Bool
  msr_bitmap : vmx_msr_bitmap
  ctrl_fields : List (CtrlFieldId × Nat)
  ctrl_fields_written : Bool
  host_fields_written : Bool
  guest_fields_written : Bool
  tsc_measured : Bool
  launched : Bool

/-- The controller state before activation. -/
def init_mstate : MState :=
  { cached := none
    cache_write_count := 0
    vmx_enabled := false
    vmx_entered := false
    vmcs_loaded := false
    structures_prepared := false
    msr_bitmap := zero_msr_bitmap
    ctrl_fields := []
    ctrl_fields_written := false
    host_fields_written := false
    guest_fields_written := false
    tsc_measured := false
    launched := false }

/-- Modelled from the spec: effect of `vcpu::cache_vcpu_data` on the
controller state: populates `cached_` from the hardware sources (and bumps
the observation counter for the write). -/
def do_cache_vcpu_data (hw : HwState) (s : MState) : MState :=
  { s with
      cached := some (cache_vcpu_data hw)
      cache_write_count := s.cache_write_count + 1 }

/-- Modelled from the spec: `vcpu::enable_vmx_operation` (declared
src/hv/vcpu.h:75, body not among the provided sources): performs the
control-register and lock-register adjustments required before the
activation instruction is legal; fails when the hardware cannot be brought
into the required state. -/
def enable_vmx_operation (env : HwEnv) (s : MState) : Bool × MState :=
  if env.enable_ok then (true, { s with vmx_enabled := true }) else (false, s)

/-- Modelled from the spec: `vcpu::enter_vmx_operation` (declared
src/hv/vcpu.h:78, body not among the provided sources): executes the
activation instruction; fails when an enabling precondition was not met or
the instruction itself reports failure. -/
def enter_vmx_operation (env : HwEnv) (s : MState) : Bool × MState :=
  if s.vmx_enabled && env.vmxon_ok then
    (true, { s with vmx_entered := true })
  else (false, s)

/-- Modelled from the spec: `vcpu::load_vmcs_pointer` (declared
src/hv/vcpu.h:81, body not among the provided sources): marks the
execution-control region current; the hardware rejects the load when the
processor has not entered virtualized operation, or reports it invalid. -/
def load_vmcs_pointer (env : HwEnv) (s : MState) : Bool × MState :=
  if s.vmx_entered && env.vmptrld_ok then
    (true, { s with vmcs_loaded := true })
  else (false, s)

/-- Modelled from the spec: `vcpu::prepare_external_structures` (declared
src/hv/vcpu.h:84, body not among the provided sources): invokes the
address-translation subsystem to construct the required structures. -/
def prepare_external_structures (s : MState) : MState :=
  { s with structures_prepared := true }

/-- Modelled from the spec: `vcpu::write_vmcs_ctrl_fields` (declared
src/hv/vcpu.h:87, body not among the provided sources): consults the
capability cache, installs the default all-intercept MSR bitmap, and
validates every requested control-field value against the cache's
mandatory-one masks, rejecting the stage when any value clears a
mandatory-one bit. -/
def write_vmcs_ctrl_fields (env : HwEnv) (s : MState) : Bool × MState :=
  match s.cached with
  | none => (false, s)
  | some cd =>
    if ctrl_writes_ok cd env.ctrl_writes then
      (true, { s with
                 msr_bitmap := default_msr_bitmap
                 ctrl_fields := env.ctrl_writes
                 ctrl_fields_written := true })
    else (false, s)

/-- Modelled from the spec: `vcpu::write_vmcs_host_fields` (declared
src/hv/vcpu.h:90, body not among the provided sources). -/
def write_vmcs_host_fields (s : MState) : MState :=
  { s with host_fields_written := true }

/-- Modelled from the spec: `vcpu::write_vmcs_guest_fields` (declared
src/hv/vcpu.h:93, body not among the provided sources). -/
def write_vmcs_guest_fields (s : MState) : MState :=
  { s with guest_fields_written := true }

/-- Modelled from the spec: `vcpu::measure_tsc_latency` (declared
src/hv/vcpu.h:96, body not among the provided sources). -/
def measure_tsc_latency (s : MState) : MState :=
  { s with tsc_measured := true }

/-- Modelled from the spec: `vcpu::vm_launch` (declared src/hv/vcpu.h:100,
body in vm-launch.asm, not among the provided sources): the world-switch
entry primitive; returns failure when the first resume attempt is
rejected. -/
def vm_launch (env : HwEnv) (s : MState) : Bool × MState :=
  if env.launch_ok then (true, { s with launched := true }) else (false, s)

/-- Result of one activation run: the boolean outcome reported to the
caller, the final controller state, and the list of stages attempted. -/
structure VmResult where
  ok : Bool
  state : MState
  trace : List Stage

/-- Modelled from the spec: the body of `vcpu::virtualize` (declared
src/hv/vcpu.h:59, definition not among the provided sources): runs the
activation stages in the canonical order, aborting at the first failing
stage with a `false` outcome and attempting no later stage; no stage is
retried. -/
def virtualize (hw : HwState) (env : HwEnv) : VmResult :=
  let s1 := do_cache_vcpu_data hw init_mstate
  let r2 := enable_vmx_operation env s1
  if !r2.1 then ⟨false, r2.2, [.cache, .enable]⟩ else
  let r3 := enter_vmx_operation env r2.2
  if !r3.1 then ⟨false, r3.2, [.cache, .enable, .enter]⟩ else
  let r4 := load_vmcs_pointer env r3.2
  if !r4.1 then ⟨false, r4.2, [.cache, .enable, .enter, .load]⟩ else
  let s5 := prepare_external_structures r4.2
  let r6 := write_vmcs_ctrl_fields env s5
  if !r6.1 then
    ⟨false, r6.2, [.cache, .enable, .enter, .load, .prepare, .writeCtrl]⟩
  else
  let s7 := write_vmcs_host_fields r6.2
  let s8 := write_vmcs_guest_fields s7
  let s9 := measure_tsc_latency s8
  let r10 := vm_launch env s9
  ⟨r10.1, r10.2, full_stage_order⟩

/-- One step of the activation machine under an arbitrary stage request
(used to state reachability properties over arbitrary stage orderings). -/
def step_stage (hw : HwState) (env : HwEnv) (s : MState) : Stage → MState
  | .cache => do_cache_vcpu_data hw s
  | .enable => (enable_vmx_operation env s).2
  | .enter => (enter_vmx_operation env s).2
  | .load => (load_vmcs_pointer env s).2
  | .prepare => prepare_external_structures s
  | .writeCtrl => (write_vmcs_ctrl_fields env s).2
  | .writeHost => write_vmcs_host_fields s
  | .writeGuest => write_vmcs_guest_fields s
  | .measure => measure_tsc_latency s
  | .launch => (vm_launch env s).2

/-- Run the activation machine over an arbitrary list of stage requests. -/
def run_stages (hw : HwState) (env : HwEnv) (s : MState) :
    List Stage → MState
  | [] => s
  | a :: rest => run_stages hw env (step_stage hw env s a) rest

/-! ## Host interrupt handling

`vcpu::handle_host_interrupt` (src/hv/vcpu.h:109) runs whenever an interrupt
arrives while the processor executes monitor code, possibly in the middle of
an exit-handler invocation. -/

/-- The trap frame handed to the host interrupt handler
(src/hv/vcpu.h:109); modelled by the interrupt vector and the saved
instruction pointer. -/
structure trap_frame where
  vector : Nat
  rip : Nat

/-- The guest-context handle (src/hv/vcpu.h:134); opaque to this core, so
modelled by an identifier. -/
structure guest_context where
  id : Nat
deriving DecidableEq

/-- The monitor-side state visible to the interrupt handler: the
guest-context handle `guest_ctx_`, the fields an in-progress exit-handler
invocation writes, the monitor's own interrupt table `host_idt_`, and the
host-side dispatch bookkeeping the handler is allowed to touch. -/
structure HostIntrState where
  guest_ctx : Option guest_context
  exit_reason_in_progress : Nat
  exit_qualification_in_progress : Nat
  host_idt : Nat → Nat
  dispatch_log : List Nat

/-- Modelled from the spec: the body of `vcpu::handle_host_interrupt`
(declared src/hv/vcpu.h:109, definition not among the provided sources):
acknowledges/dispatches the interrupt through the monitor's own interrupt
table, mutating only the host-side dispatch bookkeeping — never the
guest-context handle nor any in-progress exit-handling field. -/
def handle_host_interrupt (frame : trap_frame) (s : HostIntrState) :
    HostIntrState :=
  { s with dispatch_log := s.dispatch_log ++ [s.host_idt frame.vector] }

/-! ## Member layout of class vcpu

The data members of class `vcpu` are declared at src/hv/vcpu.h:112-140 with
explicit `alignas(0x1000)` on the first five; the descriptor-table members
carry no alignment specifier and take the natural alignment of their
hardware-defined element types (16-byte interrupt gates, 8-byte segment
descriptors; the 64-bit task-state segment is the architectural 104-byte
packed layout).  The layout below applies the C++ rule that each member is
placed at the next offset aligned to its alignment. -/

/-- Round `a` up to the next multiple of `n`. -/
def align_up (a n : Nat) : Nat := (a + n - 1) / n * n

/-- (size, alignment) of each data member of class `vcpu`, in declaration
order (src/hv/vcpu.h:112-140): `vmxon_`, `vmcs_`, `msr_bitmap_` (each a
4 KiB region, `alignas(0x1000)`), `host_stack_` (`host_stack_size` bytes,
`alignas(0x1000)`), `host_tss_` (104-byte TSS, `alignas(0x1000)`),
`host_idt_` (256 interrupt gates of 16 bytes, no alignment specifier),
`host_gdt_` (4 descriptors of 8 bytes, no alignment specifier),
`guest_ctx_` (pointer), `cached_` (eight 64-bit-aligned quantities plus the
16-byte CPUID leaf), `vm_exit_tsc_latency_`. -/
def vcpu_members : List (Nat × Nat) :=
  [ (4096, 4096),
    (4096, 4096),
    (4096, 4096),
    (host_stack_size, 4096),
    (104, 4096),
    (16 * host_idt_descriptor_count, 8),
    (8 * host_gdt_descriptor_count, 8),
    (8, 8),
    (72, 8),
    (8, 8) ]

/-- Offsets assigned to a member list starting at offset `cur`: each member
goes at the next offset aligned to its alignment. -/
def layout_offsets (cur : Nat) : List (Nat × Nat) → List Nat
  | [] => []
  | (sz, al) :: rest =>
    align_up cur al :: layout_offsets (align_up cur al + sz) rest

/-- The member offsets of class `vcpu`. -/
def vcpu_offsets : List Nat := layout_offsets 0 vcpu_members

/-! ## Sample inputs used to instantiate the theorems -/

/-- A sample hardware capability snapshot. -/
def hw_sample : HwState := ⟨52, 0x21, 0xFFFFFFFF, 0x2000, 0x3FFFFF, 0, 5, 7⟩

/-- A sample environment in which every stage succeeds and no control-field
write is requested. -/
def env_sample_ok : HwEnv := ⟨true, true, true, true, []⟩

/-- A hardware snapshot whose capability cache marks bit 3 of CR0
mandatory-one. -/
def hw_fixed_bit3 : HwState := ⟨52, 8, 0xFFFFFFFF, 0, 0xFFFFFFFF, 0, 5, 7⟩

/-- An environment requesting a guest CR0 value with bit 3 clear. -/
def env_bad_cr0 : HwEnv :=
  ⟨true, true, true, true, [(CtrlFieldId.guest_cr0, 0)]⟩

/-- A bitmap whose read-intercept and write-intercept dimensions disagree at
every low-range identifier (read set, write clear). -/
def mixed_msr_bitmap : vmx_msr_bitmap :=
  ⟨fun _ => true, fun _ => false, fun _ => false, fun _ => false⟩

/-! ## Lemmas about the toggling operation -/

lemma setBit_self (f : Nat → Bool) (i : Nat) (b : Bool) (h : f i = b) :
    setBit f i b = f := by
  funext j
  simp only [setBit]
  by_cases hj : j = i
  · subst hj
    simp [h]
  · simp [hj]

lemma read_toggle_self (bm : vmx_msr_bitmap) (i : Nat) (e : Bool)
    (hi : i < 2 * msr_range_size) :
    read_intercept_bit (toggle_exiting_for_msr bm i e)
      (msr_bit_addr i).1 (msr_bit_addr i).2 = e := by
  by_cases h : i < msr_range_size
  · rw [msr_bit_addr_low i h, toggle_low_eq bm i e h]
    simp [read_intercept_bit, setBit]
  · have h1 : msr_range_size ≤ i := by omega
    rw [msr_bit_addr_high i h1 hi, toggle_high_eq bm i e h1 hi]
    simp [read_intercept_bit, setBit]

lemma write_toggle_self (bm : vmx_msr_bitmap) (i : Nat) (e : Bool)
    (hi : i < 2 * msr_range_size) :
    write_intercept_bit (toggle_exiting_for_msr bm i e)
      (msr_bit_addr i).1 (msr_bit_addr i).2 = e := by
  by_cases h : i < msr_range_size
  · rw [msr_bit_addr_low i h, toggle_low_eq bm i e h]
    simp [write_intercept_bit, setBit]
  · have h1 : msr_range_size ≤ i := by omega
    rw [msr_bit_addr_high i h1 hi, toggle_high_eq bm i e h1 hi]
    simp [write_intercept_bit, setBit]

lemma read_toggle_other (bm : vmx_msr_bitmap) (i j : Nat) (e : Bool)
    (hi : i < 2 * msr_range_size) (hj : j < 2 * msr_range_size)
    (hne : j ≠ i) :
    read_intercept_bit (toggle_exiting_for_msr bm i e)
      (msr_bit_addr j).1 (msr_bit_addr j).2 =
      read_intercept_bit bm (msr_bit_addr j).1 (msr_bit_addr j).2 := by
  by_cases h : i < msr_range_size
  · rw [toggle_low_eq bm i e h]
    by_cases h' : j < msr_range_size
    · rw [msr_bit_addr_low j h']
      simp [read_intercept_bit, setBit, hne]
    · have h1 : msr_range_size ≤ j := by omega
      rw [msr_bit_addr_high j h1 hj]
      simp [read_intercept_bit]
  · have h1 : msr_range_size ≤ i := by omega
    rw [toggle_high_eq bm i e h1 hi]
    by_cases h' : j < msr_range_size
    · rw [msr_bit_addr_low j h']
      simp [read_intercept_bit]
    · have h2 : msr_range_size ≤ j := by omega
      rw [msr_bit_addr_high j h2 hj]
      have hoff : j - msr_range_size ≠ i - msr_range_size := by omega
      simp [read_intercept_bit, setBit, hoff]

lemma write_toggle_other (bm : vmx_msr_bitmap) (i j : Nat) (e : Bool)
    (hi : i < 2 * msr_range_size) (hj : j < 2 * msr_range_size)
    (hne : j ≠ i) :
    write_intercept_bit (toggle_exiting_for_msr bm i e)
      (msr_bit_addr j).1 (msr_bit_addr j).2 =
      write_intercept_bit bm (msr_bit_addr j).1 (msr_bit_addr j).2 := by
  by_cases h : i < msr_range_size
  · rw [toggle_low_eq bm i e h]
    by_cases h' : j < msr_range_size
    · rw [msr_bit_addr_low j h']
      simp [write_intercept_bit, setBit, hne]
    · have h1 : msr_range_size ≤ j := by omega
      rw [msr_bit_addr_high j h1 hj]
      simp [write_intercept_bit]
  · have h1 : msr_range_size ≤ i := by omega
    rw [toggle_high_eq bm i e h1 hi]
    by_cases h' : j < msr_range_size
    · rw [msr_bit_addr_low j h']
      simp [write_intercept_bit]
    · have h2 : msr_range_size ≤ j := by omega
      rw [msr_bit_addr_high j h2 hj]
      have hoff : j - msr_range_size ≠ i - msr_range_size := by omega
      simp [write_intercept_bit, setBit, hoff]

lemma toggle_noop (bm : vmx_msr_bitmap) (i : Nat) (e : Bool)
    (hi : i < 2 * msr_range_size)
    (hre : read_intercept_bit bm (msr_bit_addr i).1 (msr_bit_addr i).2 = e)
    (hwe : write_intercept_bit bm (msr_bit_addr i).1 (msr_bit_addr i).2 = e) :
    toggle_exiting_for_msr bm i e = bm := by
  by_cases h : i < msr_range_size
  · rw [msr_bit_addr_low i h] at hre hwe
    simp only [read_intercept_bit, write_intercept_bit, Bool.false_eq_true,
      if_neg] at hre hwe
    rw [toggle_low_eq bm i e h, setBit_self bm.rdmsr_low i e hre,
      setBit_self bm.wrmsr_low i e hwe]
  · have h1 : msr_range_size ≤ i := by omega
    rw [msr_bit_addr_high i h1 hi] at hre hwe
    simp only [read_intercept_bit, write_intercept_bit, if_pos] at hre hwe
    rw [toggle_high_eq bm i e h1 hi,
      setBit_self bm.rdmsr_high (i - msr_range_size) e hre,
      setBit_self bm.wrmsr_high (i - msr_range_size) e hwe]

/-! ## C1: the bit-addressing law of the toggling operation -/

/-- C1: for every identifier `i` accepted by `toggle_exiting_for_msr`, the
bit it sets or clears lives in the sub-region selected by
`i ≥ msr_range_size` at bit offset `i % msr_range_size`, in both the
read-intercept and the write-intercept dimension (the toggled bit takes the
requested value there, and every other (sub-region, offset) position is
untouched in both dimensions); the boundary identifiers `0`,
`msr_range_size - 1`, `msr_range_size` and `2 * msr_range_size - 1` map to
the first bit of the low sub-region, the last bit of the low sub-region, the
first bit of the high sub-region, and the last bit of the high sub-region
respectively. -/
theorem toggle_exiting_for_msr_bit_addressing (bm : vmx_msr_bitmap)
    (msr : Nat) (enabled high : Bool) (off : Nat)
    (hmsr : msr < 2 * msr_range_size)
    (hpos : (high, off) ≠ msr_bit_addr msr) :
    read_intercept_bit (toggle_exiting_for_msr bm msr enabled)
      (msr_bit_addr msr).1 (msr_bit_addr msr).2 = enabled ∧
    write_intercept_bit (toggle_exiting_for_msr bm msr enabled)
      (msr_bit_addr msr).1 (msr_bit_addr msr).2 = enabled ∧
    read_intercept_bit (toggle_exiting_for_msr bm msr enabled) high off =
      read_intercept_bit bm high off ∧
    write_intercept_bit (toggle_exiting_for_msr bm msr enabled) high off =
      write_intercept_bit bm high off ∧
    msr_bit_addr 0 = (false, 0) ∧
    msr_bit_addr (msr_range_size - 1) = (false, msr_range_size - 1) ∧
    msr_bit_addr msr_range_size = (true, 0) ∧
    msr_bit_addr (2 * msr_range_size - 1) = (true, msr_range_size - 1) := by
  refine ⟨read_toggle_self bm msr enabled hmsr,
    write_toggle_self bm msr enabled hmsr, ?_, ?_,
    by decide, by decide, by decide, by decide⟩
  · by_cases h : msr < msr_range_size
    · rw [msr_bit_addr_low msr h] at hpos
      rw [toggle_low_eq bm msr enabled h]
      cases high
      · have hoff : off ≠ msr := fun he => hpos (by rw [he])
        simp [read_intercept_bit, setBit, hoff]
      · simp [read_intercept_bit]
    · have h1 : msr_range_size ≤ msr := by omega
      rw [msr_bit_addr_high msr h1 hmsr] at hpos
      rw [toggle_high_eq bm msr enabled h1 hmsr]
      cases high
      · simp [read_intercept_bit]
      · have hoff : off ≠ msr - msr_range_size := fun he => hpos (by rw [he])
        simp [read_intercept_bit, setBit, hoff]
  · by_cases h : msr < msr_range_size
    · rw [msr_bit_addr_low msr h] at hpos
      rw [toggle_low_eq bm msr enabled h]
      cases high
      · have hoff : off ≠ msr := fun he => hpos (by rw [he])
        simp [write_intercept_bit, setBit, hoff]
      · simp [write_intercept_bit]
    · have h1 : msr_range_size ≤ msr := by omega
      rw [msr_bit_addr_high msr h1 hmsr] at hpos
      rw [toggle_high_eq bm msr enabled h1 hmsr]
      cases high
      · simp [write_intercept_bit]
      · have hoff : off ≠ msr - msr_range_size := fun he => hpos (by rw [he])
        simp [write_intercept_bit, setBit, hoff]

/-- Witness for C1: identifier 3 with intercept requested, checked at the
untouched position (high sub-region, offset 0). -/
theorem toggle_exiting_for_msr_bit_addressing_witness :
    read_intercept_bit (toggle_exiting_for_msr zero_msr_bitmap 3 true)
      (msr_bit_addr 3).1 (msr_bit_addr 3).2 = true ∧
    read_intercept_bit (toggle_exiting_for_msr zero_msr_bitmap 3 true)
      true 0 = read_intercept_bit zero_msr_bitmap true 0 :=
  ⟨(toggle_exiting_for_msr_bit_addressing zero_msr_bitmap 3 true true 0
      (by decide) (by decide)).1,
   (toggle_exiting_for_msr_bit_addressing zero_msr_bitmap 3 true true 0
      (by decide) (by decide)).2.2.1⟩

/-! ## C2: round trip, frame and idempotence of the toggling operation -/

/-- C2 counterexample: with identifier 0's read-intercept bit initially set,
toggling it on and then off leaves the bit cleared — it does not restore the
original value, because the operation writes the requested state rather than
saving and restoring. -/
theorem toggle_round_trip_counterexample :
    default_msr_bitmap.rdmsr_low 0 = true ∧
    (toggle_exiting_for_msr
        (toggle_exiting_for_msr default_msr_bitmap 0 true) 0
        false).rdmsr_low 0 = false := by
  refine ⟨rfl, ?_⟩
  decide

/-- C2 amended: starting from ANY bitmap state, toggling an in-range
identifier on and then off leaves its bit cleared in both dimensions (hence
restores the original value exactly when the bit was originally clear);
toggling never alters the bit of any other in-range identifier in either
dimension; and toggling an identifier to a state its bits already have (in
both dimensions, which is what the operation writes) leaves the entire
bitmap unchanged. -/
theorem toggle_msr_roundtrip_frame_idem (bm : vmx_msr_bitmap) (i j : Nat)
    (eAny : Bool)
    (hi : i < 2 * msr_range_size) (hj : j < 2 * msr_range_size)
    (hne : j ≠ i) :
    read_intercept_bit
      (toggle_exiting_for_msr (toggle_exiting_for_msr bm i true) i false)
      (msr_bit_addr i).1 (msr_bit_addr i).2 = false ∧
    write_intercept_bit
      (toggle_exiting_for_msr (toggle_exiting_for_msr bm i true) i false)
      (msr_bit_addr i).1 (msr_bit_addr i).2 = false ∧
    read_intercept_bit (toggle_exiting_for_msr bm i eAny)
      (msr_bit_addr j).1 (msr_bit_addr j).2 =
      read_intercept_bit bm (msr_bit_addr j).1 (msr_bit_addr j).2 ∧
    write_intercept_bit (toggle_exiting_for_msr bm i eAny)
      (msr_bit_addr j).1 (msr_bit_addr j).2 =
      write_intercept_bit bm (msr_bit_addr j).1 (msr_bit_addr j).2 ∧
    (∀ e : Bool,
      read_intercept_bit bm (msr_bit_addr i).1 (msr_bit_addr i).2 = e →
      write_intercept_bit bm (msr_bit_addr i).1 (msr_bit_addr i).2 = e →
      toggle_exiting_for_msr bm i e = bm) :=
  ⟨read_toggle_self (toggle_exiting_for_msr bm i true) i false hi,
   write_toggle_self (toggle_exiting_for_msr bm i true) i false hi,
   read_toggle_other bm i j eAny hi hj hne,
   write_toggle_other bm i j eAny hi hj hne,
   fun e hre hwe => toggle_noop bm i e hi hre hwe⟩

/-- Witness for C2 (amended) at identifier 3, observer 5: the round trip
and the frame on a bitmap whose two dimensions disagree at 3, and the no-op
on the all-set bitmap. -/
theorem toggle_msr_roundtrip_frame_idem_witness :
    read_intercept_bit
      (toggle_exiting_for_msr
        (toggle_exiting_for_msr mixed_msr_bitmap 3 true) 3 false)
      (msr_bit_addr 3).1 (msr_bit_addr 3).2 = false ∧
    read_intercept_bit (toggle_exiting_for_msr mixed_msr_bitmap 3 false)
      (msr_bit_addr 5).1 (msr_bit_addr 5).2 =
      read_intercept_bit mixed_msr_bitmap
        (msr_bit_addr 5).1 (msr_bit_addr 5).2 ∧
    toggle_exiting_for_msr default_msr_bitmap 3 true = default_msr_bitmap :=
  ⟨(toggle_msr_roundtrip_frame_idem mixed_msr_bitmap 3 5 false
      (by decide) (by decide) (by decide)).1,
   (toggle_msr_roundtrip_frame_idem mixed_msr_bitmap 3 5 false
      (by decide) (by decide) (by decide)).2.2.1,
   (toggle_msr_roundtrip_frame_idem default_msr_bitmap 3 5 true
      (by decide) (by decide) (by decide)).2.2.2.2 true
     (by decide) (by decide)⟩

/-! ## Lemmas about the activation machine -/

lemma step_preserves_loaded_entered (hw : HwState) (env : HwEnv) (s : MState)
    (a : Stage)
    (h : s.vmcs_loaded = true → s.vmx_entered = true) :
    (step_stage hw env s a).vmcs_loaded = true →
    (step_stage hw env s a).vmx_entered = true := by
  cases a <;>
    simp only [step_stage, do_cache_vcpu_data, enable_vmx_operation,
      enter_vmx_operation, load_vmcs_pointer, prepare_external_structures,
      write_vmcs_ctrl_fields, write_vmcs_host_fields, write_vmcs_guest_fields,
      measure_tsc_latency, vm_launch] <;>
    (repeat' split) <;> simp_all

lemma run_stages_loaded_entered (hw : HwState) (env : HwEnv) :
    ∀ (acts : List Stage) (s : MState),
      (s.vmcs_loaded = true → s.vmx_entered = true) →
      (run_stages hw env s acts).vmcs_loaded = true →
      (run_stages hw env s acts).vmx_entered = true := by
  intro acts
  induction acts with
  | nil => intro s h; exact h
  | cons a rest ih =>
    intro s h
    exact ih (step_stage hw env s a)
      (step_preserves_loaded_entered hw env s a h)

/-! ## C6: ordering of VMXON and the control-structure pointer load -/

/-- C6: invoking `load_vmcs_pointer` on a processor that has not entered
virtualized operation fails deterministically, leaving the state unchanged
(it never silently succeeds); and in every run of the activation machine
from the initial state — under any stage ordering whatsoever — the
control-structure-loaded state is reachable only through the
extension-entered state. -/
theorem load_vmcs_requires_vmx_entered :
    (∀ (env : HwEnv) (s : MState), s.vmx_entered = false →
      load_vmcs_pointer env s = (false, s)) ∧
    (∀ (hw : HwState) (env : HwEnv) (acts : List Stage),
      (run_stages hw env init_mstate acts).vmcs_loaded = true →
      (run_stages hw env init_mstate acts).vmx_entered = true) := by
  constructor
  · intro env s h
    simp [load_vmcs_pointer, h]
  · intro hw env acts
    exact run_stages_loaded_entered hw env acts init_mstate (by simp [init_mstate])

/-- Witness for C6: the load fails from the initial state, and a run that
reaches the loaded state has entered virtualized operation. -/
theorem load_vmcs_requires_vmx_entered_witness :
    load_vmcs_pointer env_sample_ok init_mstate = (false, init_mstate) ∧
    (run_stages hw_sample env_sample_ok init_mstate
        [Stage.cache, Stage.enable, Stage.enter, Stage.load]).vmx_entered =
      true :=
  ⟨load_vmcs_requires_vmx_entered.1 env_sample_ok init_mstate rfl,
   load_vmcs_requires_vmx_entered.2 hw_sample env_sample_ok
     [Stage.cache, Stage.enable, Stage.enter, Stage.load] (by decide)⟩

/-! ## C5: fail-fast, no-retry activation sequence -/

/-- C5: in every run of `virtualize`, the attempted-stage trace contains no
stage twice (no retry), it is an initial segment of the canonical stage
order (a failure aborts the sequence, so no later stage is attempted), the
boolean outcome is `true` exactly when every fallible stage succeeded, and a
stage is attempted only if every preceding fallible stage succeeded. -/
theorem virtualize_failfast (hw : HwState) (env : HwEnv) :
    (virtualize hw env).trace.Nodup ∧
    isHeadSeq (virtualize hw env).trace full_stage_order = true ∧
    ((virtualize hw env).ok = true ↔
      env.enable_ok = true ∧ env.vmxon_ok = true ∧ env.vmptrld_ok = true ∧
      ctrl_writes_ok (cache_vcpu_data hw) env.ctrl_writes = true ∧
      env.launch_ok = true) ∧
    (Stage.enter ∈ (virtualize hw env).trace → env.enable_ok = true) ∧
    (Stage.load ∈ (virtualize hw env).trace →
      env.enable_ok = true ∧ env.vmxon_ok = true) ∧
    (Stage.prepare ∈ (virtualize hw env).trace →
      env.enable_ok = true ∧ env.vmxon_ok = true ∧
      env.vmptrld_ok = true) ∧
    (Stage.writeHost ∈ (virtualize hw env).trace →
      ctrl_writes_ok (cache_vcpu_data hw) env.ctrl_writes = true) ∧
    (Stage.launch ∈ (virtualize hw env).trace →
      env.enable_ok = true ∧ env.vmxon_ok = true ∧ env.vmptrld_ok = true ∧
      ctrl_writes_ok (cache_vcpu_data hw) env.ctrl_writes = true) := by
  rcases env with ⟨e1, e2, e3, e4, ws⟩
  cases hb : ctrl_writes_ok (cache_vcpu_data hw) ws <;>
    cases e1 <;> cases e2 <;> cases e3 <;> cases e4 <;>
    simp_all [virtualize, do_cache_vcpu_data, enable_vmx_operation,
      enter_vmx_operation, load_vmcs_pointer, prepare_external_structures,
      write_vmcs_ctrl_fields, write_vmcs_host_fields,
      write_vmcs_guest_fields, measure_tsc_latency, vm_launch, init_mstate,
      full_stage_order, isHeadSeq]

/-- Witness for C5: with every stage succeeding, the outcome is success and
the trace repeats no stage. -/
theorem virtualize_failfast_witness :
    (virtualize hw_sample env_sample_ok).ok = true ∧
    (virtualize hw_sample env_sample_ok).trace.Nodup :=
  ⟨(virtualize_failfast hw_sample env_sample_ok).2.2.1.mpr
      ⟨rfl, rfl, rfl, by decide, rfl⟩,
   (virtualize_failfast hw_sample env_sample_ok).1⟩

/-! ## C3: the capability cache is written once and consulted thereafter -/

/-- C3: in every activation run the capability cache is written exactly
once, by the cache stage at the head of the sequence (the write counter ends
at 1, the cache holds the snapshot of the hardware sources, and the cache
stage appears exactly once, first, in the trace); no stage other than the
cache stage ever writes the cache, from any state; and the run's entire
outcome — including every field-population decision — depends on the
hardware only through the cached snapshot, never by re-querying it. -/
theorem cached_write_once (hw hw' : HwState) (env : HwEnv) (s : MState)
    (a : Stage) (ha : a ≠ Stage.cache)
    (hcd : cache_vcpu_data hw = cache_vcpu_data hw') :
    (virtualize hw env).state.cache_write_count = 1 ∧
    (virtualize hw env).state.cached = some (cache_vcpu_data hw) ∧
    (virtualize hw env).trace.count Stage.cache = 1 ∧
    (virtualize hw env).trace.head? = some Stage.cache ∧
    (step_stage hw env s a).cached = s.cached ∧
    (step_stage hw env s a).cache_write_count = s.cache_write_count ∧
    virtualize hw env = virtualize hw' env := by
  have hmain : (virtualize hw env).state.cache_write_count = 1 ∧
      (virtualize hw env).state.cached = some (cache_vcpu_data hw) ∧
      (virtualize hw env).trace.count Stage.cache = 1 ∧
      (virtualize hw env).trace.head? = some Stage.cache := by
    rcases env with ⟨e1, e2, e3, e4, ws⟩
    cases hb : ctrl_writes_ok (cache_vcpu_data hw) ws <;>
      cases e1 <;> cases e2 <;> cases e3 <;> cases e4 <;>
      (simp_all [virtualize, do_cache_vcpu_data, enable_vmx_operation,
        enter_vmx_operation, load_vmcs_pointer, prepare_external_structures,
        write_vmcs_ctrl_fields, write_vmcs_host_fields,
        write_vmcs_guest_fields, measure_tsc_latency, vm_launch, init_mstate,
        full_stage_order]
       try decide)
  have hframe : (step_stage hw env s a).cached = s.cached ∧
      (step_stage hw env s a).cache_write_count = s.cache_write_count := by
    cases a <;>
      simp only [step_stage, enable_vmx_operation, enter_vmx_operation,
        load_vmcs_pointer, prepare_external_structures,
        write_vmcs_ctrl_fields, write_vmcs_host_fields,
        write_vmcs_guest_fields, measure_tsc_latency, vm_launch] <;>
      first
        | exact absurd rfl ha
        | ((repeat' split) <;> simp_all)
  have hfun : virtualize hw env = virtualize hw' env := by
    unfold virtualize
    rw [show do_cache_vcpu_data hw init_mstate =
        do_cache_vcpu_data hw' init_mstate from by
      simp [do_cache_vcpu_data, hcd]]
  exact ⟨hmain.1, hmain.2.1, hmain.2.2.1, hmain.2.2.2, hframe.1, hframe.2,
    hfun⟩

/-- Witness for C3: one cache write in a successful run, and the enable
stage leaves the cache untouched. -/
theorem cached_write_once_witness :
    (virtualize hw_sample env_sample_ok).state.cache_write_count = 1 ∧
    (step_stage hw_sample env_sample_ok init_mstate Stage.enable).cached =
      init_mstate.cached :=
  ⟨(cached_write_once hw_sample hw_sample env_sample_ok init_mstate
      Stage.enable (by decide) rfl).1,
   (cached_write_once hw_sample hw_sample env_sample_ok init_mstate
      Stage.enable (by decide) rfl).2.2.2.2.1⟩

/-! ## C4: proactive rejection of mandatory-one violations -/

/-- C4: if any requested control-field value clears a bit the capability
cache marks mandatory-one, the activation run fails during the field-write
stage: the outcome is failure, the trace ends at the field-write stage, and
no resume (launch) is ever attempted. -/
theorem ctrl_write_violation_rejected (hw : HwState) (env : HwEnv)
    (f : CtrlFieldId) (v : Nat)
    (hmem : (f, v) ∈ env.ctrl_writes)
    (hviol : validate_ctrl_write (cache_vcpu_data hw) f v = false)
    (he : env.enable_ok = true) (hx : env.vmxon_ok = true)
    (hp : env.vmptrld_ok = true) :
    (virtualize hw env).ok = false ∧
    (virtualize hw env).trace =
      [.cache, .enable, .enter, .load, .prepare, .writeCtrl] ∧
    Stage.launch ∉ (virtualize hw env).trace := by
  have hall : ctrl_writes_ok (cache_vcpu_data hw) env.ctrl_writes = false := by
    cases hb : ctrl_writes_ok (cache_vcpu_data hw) env.ctrl_writes
    · rfl
    · exfalso
      simp only [ctrl_writes_ok] at hb
      have h1 := List.all_eq_true.mp hb (f, v) hmem
      simp only [hviol] at h1
      exact Bool.false_ne_true h1
  refine ⟨?_, ?_, ?_⟩ <;>
    simp_all [virtualize, do_cache_vcpu_data, enable_vmx_operation,
      enter_vmx_operation, load_vmcs_pointer, prepare_external_structures,
      write_vmcs_ctrl_fields, write_vmcs_host_fields,
      write_vmcs_guest_fields, measure_tsc_latency, vm_launch, init_mstate,
      full_stage_order]

/-- Witness for C4: a cache requiring CR0 bit 3 rejects a guest CR0 of 0 at
the field-write stage. -/
theorem ctrl_write_violation_rejected_witness :
    (virtualize hw_fixed_bit3 env_bad_cr0).ok = false ∧
    (virtualize hw_fixed_bit3 env_bad_cr0).trace =
      [.cache, .enable, .enter, .load, .prepare, .writeCtrl] :=
  ⟨(ctrl_write_violation_rejected hw_fixed_bit3 env_bad_cr0
      CtrlFieldId.guest_cr0 0 (by decide) (by decide) rfl rfl rfl).1,
   (ctrl_write_violation_rejected hw_fixed_bit3 env_bad_cr0
      CtrlFieldId.guest_cr0 0 (by decide) (by decide) rfl rfl rfl).2.1⟩

/-! ## C7: default all-intercept MSR bitmap -/

/-- C7: once the field-write stage of an activation run has completed (and
before any runtime toggling), every bit of all four sub-regions of the MSR
bitmap is set: every interceptable event is intercepted by default. -/
theorem default_bitmap_all_intercept (hw : HwState) (env : HwEnv) (i : Nat)
    (hi : i < msr_range_size)
    (he : env.enable_ok = true) (hx : env.vmxon_ok = true)
    (hp : env.vmptrld_ok = true)
    (hv : ctrl_writes_ok (cache_vcpu_data hw) env.ctrl_writes = true) :
    (virtualize hw env).state.ctrl_fields_written = true ∧
    (virtualize hw env).state.msr_bitmap.rdmsr_low i = true ∧
    (virtualize hw env).state.msr_bitmap.rdmsr_high i = true ∧
    (virtualize hw env).state.msr_bitmap.wrmsr_low i = true ∧
    (virtualize hw env).state.msr_bitmap.wrmsr_high i = true := by
  cases hl : env.launch_ok <;>
    simp_all [virtualize, do_cache_vcpu_data, enable_vmx_operation,
      enter_vmx_operation, load_vmcs_pointer, prepare_external_structures,
      write_vmcs_ctrl_fields, write_vmcs_host_fields,
      write_vmcs_guest_fields, measure_tsc_latency, vm_launch, init_mstate,
      default_msr_bitmap]

/-- Witness for C7 at bit 0x10. -/
theorem default_bitmap_all_intercept_witness :
    (virtualize hw_sample env_sample_ok).state.msr_bitmap.rdmsr_low 0x10 =
      true :=
  (default_bitmap_all_intercept hw_sample env_sample_ok 0x10 (by decide)
    rfl rfl rfl (by decide)).2.1

/-! ## C8: the host interrupt handler disturbs no exit-handling state -/

/-- C8: every invocation of the host interrupt handler — including one that
interrupts an in-progress exit-handler call — returns with the
guest-context handle and every in-progress exit-handling field unchanged; it
dispatches the interrupt through the monitor's own interrupt table, mutating
nothing but the host-side dispatch bookkeeping. -/
theorem handle_host_interrupt_frame (frame : trap_frame)
    (s : HostIntrState) :
    (handle_host_interrupt frame s).guest_ctx = s.guest_ctx ∧
    (handle_host_interrupt frame s).exit_reason_in_progress =
      s.exit_reason_in_progress ∧
    (handle_host_interrupt frame s).exit_qualification_in_progress =
      s.exit_qualification_in_progress ∧
    (handle_host_interrupt frame s).host_idt = s.host_idt ∧
    (handle_host_interrupt frame s).dispatch_log =
      s.dispatch_log ++ [s.host_idt frame.vector] :=
  ⟨rfl, rfl, rfl, rfl, rfl⟩

/-! ## C9: sizes and alignment of the vcpu members -/

/-- C9 counterexample: the descriptor tables are not page-aligned.
`host_idt_` (member index 5) is laid out at offset 36968 = 9 · 4096 + 104,
and `host_gdt_` (member index 6) at offset 41064; neither offset is a
multiple of 4096, because neither member carries an `alignas(0x1000)`
specifier in src/hv/vcpu.h (lines 128 and 131). -/
theorem host_idt_not_page_aligned :
    vcpu_offsets.getD 5 0 = 36968 ∧ vcpu_offsets.getD 5 0 % 4096 ≠ 0 ∧
    vcpu_offsets.getD 6 0 = 41064 ∧ vcpu_offsets.getD 6 0 % 4096 ≠ 0 := by
  decide

/-- C9 amended: `vmxon_`, `vmcs_` and `msr_bitmap_` each occupy exactly one
full 4096-byte page at a 4096-byte-aligned offset; the host stack is
page-aligned and spans a whole number of pages; the task-state region is
page-aligned; the descriptor tables `host_idt_` (4096 bytes) and
`host_gdt_` (32 bytes) are only naturally (8-byte) aligned, not
page-aligned. -/
theorem vcpu_layout_amended :
    vcpu_offsets =
      [0, 4096, 8192, 12288, 36864, 36968, 41064, 41096, 41104, 41176] ∧
    (vcpu_members.getD 0 (0, 0)).1 = 4096 ∧ vcpu_offsets.getD 0 0 % 4096 = 0 ∧
    (vcpu_members.getD 1 (0, 0)).1 = 4096 ∧ vcpu_offsets.getD 1 0 % 4096 = 0 ∧
    (vcpu_members.getD 2 (0, 0)).1 = 4096 ∧ vcpu_offsets.getD 2 0 % 4096 = 0 ∧
    (vcpu_members.getD 3 (0, 0)).1 % 4096 = 0 ∧
    vcpu_offsets.getD 3 0 % 4096 = 0 ∧
    vcpu_offsets.getD 4 0 % 4096 = 0 ∧
    (vcpu_members.getD 5 (0, 0)).1 = 4096 ∧ vcpu_offsets.getD 5 0 % 8 = 0 ∧
    (vcpu_members.getD 6 (0, 0)).1 = 32 ∧ vcpu_offsets.getD 6 0 % 8 = 0 := by
  decide

/-! ## C10: the direct physical-memory mapping window -/

/-- C10: the base of the direct physical-memory mapping window is the fixed
compile-time constant 255 · 2³⁹ = 0x7F8000000000 (PML4 entry 255 shifted by
the 9 + 9 + 9 + 12 bits it covers), and physical address `p` is accessed at
exactly `host_physical_memory_base + p`. -/
theorem host_physical_memory_base_fixed :
    host_physical_memory_base =
      host_physical_memory_pml4_idx <<< (9 + 9 + 9 + 12) ∧
    host_physical_memory_base = 255 * 2 ^ 39 ∧
    host_physical_memory_base = 0x7F8000000000 ∧
    ∀ p : Nat, phys_mem_access p = 0x7F8000000000 + p := by
  refine ⟨rfl, by decide, by decide, fun p => ?_⟩
  rw [phys_mem_access, show host_physical_memory_base = 0x7F8000000000 from
    by decide]

end hv
